/-
  Verification of the LoongArch64 guest-to-IR front end
  (src/VEX/priv/guest_loongarch64_toIR.c).

  The decoder is shallowly embedded: IR expressions and statements are an
  inductive syntax mirroring libvex_ir.h as used by this file; the emitters
  are Lean functions that thread an explicit emission state (the IRSB
  statement list, the fresh-temp counter, and the per-instruction constant
  guest_PC_curr_instr).  Byte offsets into VexGuestLOONGARCH64State are
  abstracted into the inductive GuestReg: the source addresses guest state
  through offsetof of distinct struct fields, so distinct fields are
  distinct offsets.
-/
import Mathlib

namespace LA64

/- ---------------- IR syntax (the subset this file emits) ---------------- -/

inductive IRType
  | Ity_I1 | Ity_I8 | Ity_I16 | Ity_I32 | Ity_I64 | Ity_F32 | Ity_F64
deriving DecidableEq

inductive IRJumpKind
  | Ijk_INVALID | Ijk_Boring | Ijk_ClientReq | Ijk_NoRedir | Ijk_InvalICache
  | Ijk_NoDecode | Ijk_Sys_syscall | Ijk_SigBUS | Ijk_SigSYS | Ijk_SigILL
  | Ijk_SigTRAP | Ijk_SigFPE_IntOvf | Ijk_SigFPE_IntDiv
deriving DecidableEq

inductive IROp
  | Iop_Add32 | Iop_Add64 | Iop_And32 | Iop_And64 | Iop_Or32 | Iop_Or64
  | Iop_Xor32 | Iop_Xor64 | Iop_Shl32 | Iop_Shr32
  | Iop_CmpEQ32 | Iop_CmpNE32 | Iop_CmpNE64
  | Iop_CmpLT32S | Iop_CmpLT32U | Iop_CmpLT64S | Iop_CmpLT64U | Iop_CmpLE64U
  | Iop_CasCmpNE32 | Iop_CasCmpNE64
  | Iop_Or1 | Iop_1Uto8 | Iop_1Uto64 | Iop_1Sto64 | Iop_8Sto64 | Iop_8Uto64
  | Iop_16Sto64 | Iop_16Uto64 | Iop_32Sto64 | Iop_32Uto64 | Iop_64to32
  | Iop_ReinterpF64asI64 | Iop_ReinterpI64asF64
  | Iop_ReinterpF32asI32 | Iop_ReinterpI32asF32
  | Iop_CmpF32 | Iop_CmpF64
  | Iop_F32toI32S | Iop_F32toI64S | Iop_F64toI32S | Iop_F64toI64S
  | Iop_F64toF32 | Iop_F32toF64
deriving DecidableEq

/- Guest-state fields of VexGuestLOONGARCH64State addressed by this file.
   The source refers to them via offsetof; distinct fields have distinct
   offsets, which this inductive reflects. -/
inductive GuestReg
  | R (n : Nat)
  | PC
  | F (n : Nat)
  | FCC (n : Nat)
  | FCSR
  | LLSC_SIZE | LLSC_ADDR | LLSC_DATA
  | CMSTART | CMLEN | NRADDR
deriving DecidableEq

/- Pure helper functions called through IR CCall nodes.  Their bodies live
   outside this translation unit. -/
inductive HelperFn
  | loongarch64_calculate_FCSR
deriving DecidableEq

/- enum fpop (declared in guest_loongarch64_defs.h, outside this file); the
   constructors used by the embedded emitters.  Its numeric values are not
   in this translation unit, so the mkU64(op) argument of the FCSR helper
   call is kept symbolic (IRExpr.FpopTag below). -/
inductive fpop
  | FCMP_CAF_S | FCMP_CAF_D | FCMP_SAF_S | FCMP_SAF_D
  | FCMP_CLT_S | FCMP_CLT_D | FCMP_SLT_S | FCMP_SLT_D
  | FCMP_CEQ_S | FCMP_CEQ_D | FCMP_SEQ_S | FCMP_SEQ_D
  | FCMP_CLE_S | FCMP_CLE_D | FCMP_SLE_S | FCMP_SLE_D
  | FCMP_CUN_S | FCMP_CUN_D | FCMP_SUN_S | FCMP_SUN_D
  | FCMP_CULT_S | FCMP_CULT_D | FCMP_SULT_S | FCMP_SULT_D
  | FCMP_CUEQ_S | FCMP_CUEQ_D | FCMP_SUEQ_S | FCMP_SUEQ_D
  | FCMP_CULE_S | FCMP_CULE_D | FCMP_SULE_S | FCMP_SULE_D
  | FCMP_CNE_S | FCMP_CNE_D | FCMP_SNE_S | FCMP_SNE_D
  | FCMP_COR_S | FCMP_COR_D | FCMP_SOR_S | FCMP_SOR_D
  | FCMP_CUNE_S | FCMP_CUNE_D | FCMP_SUNE_S | FCMP_SUNE_D
  | FTINTRM_W_S | FTINTRM_W_D | FTINTRP_W_S | FTINTRP_W_D
  | FTINTRZ_W_S | FTINTRZ_W_D | FTINTRNE_W_S | FTINTRNE_W_D
  | FTINT_W_S | FTINT_W_D
  | FTINTRM_L_S | FTINTRM_L_D | FTINTRP_L_S | FTINTRP_L_D
  | FTINTRZ_L_S | FTINTRZ_L_D | FTINTRNE_L_S | FTINTRNE_L_D
  | FTINT_L_S | FTINT_L_D
  | FCVT_S_D | FCVT_D_S
deriving DecidableEq

inductive IRExpr
  | Get (r : GuestReg) (ty : IRType)
  | RdTmp (t : Nat)
  | Unop (op : IROp) (a : IRExpr)
  | Binop (op : IROp) (a b : IRExpr)
  | Load (ty : IRType) (addr : IRExpr)
  | ITE (cond t f : IRExpr)
  | U1 (n : Nat) | U8 (n : Nat) | U32 (n : Nat) | U64 (n : Nat)
  | CCall (fn : HelperFn) (a1 a2 a3 a4 : IRExpr)
  | FpopTag (op : fpop)
  | Null
deriving DecidableEq

inductive IRStmt
  | Put (r : GuestReg) (e : IRExpr)
  | WrTmp (t : Nat) (e : IRExpr)
  | Store (addr data : IRExpr)
  | Exit (guard : IRExpr) (jk : IRJumpKind) (dst : Nat) (ip : GuestReg)
  | CAS (old : Nat) (addr expd dat : IRExpr)
  | LLSC_LL (res : Nat) (addr : IRExpr)
  | LLSC_SC (res : Nat) (addr data : IRExpr)
  | MBE
  | InjectIR
deriving DecidableEq

/- ---------------- Emission state ---------------- -/

/- Decoder-scoped context: the destination IRSB (its statement list and
   IRTemp counter) plus the CONST global guest_PC_curr_instr. -/
structure EmitSt where
  pc : Nat
  stmts : List IRStmt
  tmp : Nat
deriving DecidableEq

def stmt (st : IRStmt) (s : EmitSt) : EmitSt :=
  ⟨s.pc, s.stmts ++ [st], s.tmp⟩

def newTemp (_ty : IRType) (s : EmitSt) : Nat × EmitSt :=
  (s.tmp, ⟨s.pc, s.stmts, s.tmp + 1⟩)

def mkexpr (t : Nat) : IRExpr := IRExpr.RdTmp t

def unop (op : IROp) (a : IRExpr) : IRExpr := IRExpr.Unop op a

def binop (op : IROp) (a b : IRExpr) : IRExpr := IRExpr.Binop op a b

def load (ty : IRType) (addr : IRExpr) : IRExpr := IRExpr.Load ty addr

def mkU1 (n : Nat) : IRExpr := IRExpr.U1 n

def mkU8 (n : Nat) : IRExpr := IRExpr.U8 n

def mkU32 (n : Nat) : IRExpr := IRExpr.U32 n

/- mkU64 takes a ULong; arithmetic feeding it has already wrapped at 64
   bits, which the explicit mod records. -/
def mkU64 (n : Nat) : IRExpr := IRExpr.U64 (n % 2 ^ 64)

def assign (t : Nat) (e : IRExpr) : EmitSt → EmitSt := stmt (IRStmt.WrTmp t e)

def store (addr data : IRExpr) : EmitSt → EmitSt := stmt (IRStmt.Store addr data)

def exit (e : IRExpr) (jk : IRJumpKind) (offs : Nat) (s : EmitSt) : EmitSt :=
  stmt (IRStmt.Exit e jk ((s.pc + offs) % 2 ^ 64) GuestReg.PC) s

def cas (old : Nat) (addr expd dat : IRExpr) : EmitSt → EmitSt :=
  stmt (IRStmt.CAS old addr expd dat)

/- S-extend 8/16/32 bit int expr to 64.  The source asserts that ty is one
   of the four listed cases (vassert(0) otherwise). -/
def extendS (ty : IRType) (e : IRExpr) : IRExpr :=
  match ty with
  | IRType.Ity_I1 => unop IROp.Iop_1Sto64 e
  | IRType.Ity_I8 => unop IROp.Iop_8Sto64 e
  | IRType.Ity_I16 => unop IROp.Iop_16Sto64 e
  | IRType.Ity_I32 => unop IROp.Iop_32Sto64 e
  | _ => e

/- ---------------- Bit-slicing and immediates ---------------- -/

def SLICE (insn max min : Nat) : Nat :=
  (insn >>> min) &&& (2 ^ (max - min + 1) - 1)

def get_rd (insn : Nat) : Nat := SLICE insn 4 0

def get_rj (insn : Nat) : Nat := SLICE insn 9 5

def get_rk (insn : Nat) : Nat := SLICE insn 14 10

def get_si14 (insn : Nat) : Nat := SLICE insn 23 10

def get_fd (insn : Nat) : Nat := SLICE insn 4 0

def get_fj (insn : Nat) : Nat := SLICE insn 9 5

def get_fk (insn : Nat) : Nat := SLICE insn 14 10

def get_cd (insn : Nat) : Nat := SLICE insn 2 0

/- Little-endian load of a 32-bit word from the guest byte stream. -/
def getUInt (code : Nat → Nat) (off : Nat) : Nat :=
  ((((((0 <<< 8) ||| code (off + 3)) <<< 8) ||| code (off + 2)) <<< 8)
      ||| code (off + 1)) <<< 8 ||| code off

/- Sign-extend the low size bits of imm to a 64-bit unsigned value. -/
def extend64 (imm size : Nat) : Nat :=
  let v := imm % 2 ^ size
  if v < 2 ^ (size - 1) then v else v + (2 ^ 64 - 2 ^ size)

/- ---------------- Guest register accessors ---------------- -/

def offsetIReg (iregNo : Nat) : GuestReg := GuestReg.R iregNo

def getIReg32 (iregNo : Nat) : IRExpr := IRExpr.Get (offsetIReg iregNo) IRType.Ity_I32

def getIReg64 (iregNo : Nat) : IRExpr := IRExpr.Get (offsetIReg iregNo) IRType.Ity_I64

/- Write to the integer register file; $r0 is constant zero, so a write
   targeting index 0 emits nothing. -/
def putIReg (iregNo : Nat) (e : IRExpr) (s : EmitSt) : EmitSt :=
  if iregNo ≠ 0 then stmt (IRStmt.Put (offsetIReg iregNo) e) s else s

def putPC (e : IRExpr) : EmitSt → EmitSt := stmt (IRStmt.Put GuestReg.PC e)

def getFReg64 (iregNo : Nat) : IRExpr := IRExpr.Get (GuestReg.F iregNo) IRType.Ity_F64

/- Get FReg32 from FReg64 via a reinterpret round-trip (Memcheck). -/
def getFReg32 (iregNo : Nat) : IRExpr :=
  unop IROp.Iop_ReinterpI32asF32
    (unop IROp.Iop_64to32 (unop IROp.Iop_ReinterpF64asI64 (getFReg64 iregNo)))

/- FCSR sub-register projections; the source asserts iregNo < 4. -/
def getFCSR (iregNo : Nat) : IRExpr :=
  let fcsr0 := IRExpr.Get GuestReg.FCSR IRType.Ity_I32
  match iregNo with
  | 1 => binop IROp.Iop_And32 fcsr0 (mkU32 0x0000009f)
  | 2 => binop IROp.Iop_And32 fcsr0 (mkU32 0x1f1f0000)
  | 3 => binop IROp.Iop_And32 fcsr0 (mkU32 0x00000300)
  | _ => fcsr0

def putFReg32 (iregNo : Nat) (e : IRExpr) : EmitSt → EmitSt :=
  stmt (IRStmt.Put (GuestReg.F iregNo) e)

def putFReg64 (iregNo : Nat) (e : IRExpr) : EmitSt → EmitSt :=
  stmt (IRStmt.Put (GuestReg.F iregNo) e)

def putFCC (iregNo : Nat) (e : IRExpr) : EmitSt → EmitSt :=
  stmt (IRStmt.Put (GuestReg.FCC iregNo) e)

/- Masked write to an FCSR sub-register; preserves bits outside the mask. -/
def putFCSR (iregNo : Nat) (e : IRExpr) : EmitSt → EmitSt :=
  let fcsr0 := getFCSR 0
  let p : IRExpr × IRExpr :=
    match iregNo with
    | 1 => (binop IROp.Iop_And32 fcsr0 (mkU32 0xffffff60),
            binop IROp.Iop_And32 e (mkU32 0x0000009f))
    | 2 => (binop IROp.Iop_And32 fcsr0 (mkU32 0xe0e0ffff),
            binop IROp.Iop_And32 e (mkU32 0x1f1f0000))
    | 3 => (binop IROp.Iop_And32 fcsr0 (mkU32 0xfffffcff),
            binop IROp.Iop_And32 e (mkU32 0x00000300))
    | _ => (getIReg32 0, binop IROp.Iop_And32 e (mkU32 0x1f1f03df))
  stmt (IRStmt.Put GuestReg.FCSR (binop IROp.Iop_Or32 p.1 p.2))

/- Check that addr has the low bits given by align clear; compares against
   a read of constant-zero $r0. -/
def check_align (addr align : IRExpr) : IRExpr :=
  binop IROp.Iop_CmpNE64 (binop IROp.Iop_And64 addr align)
    (IRExpr.Get (GuestReg.R 0) IRType.Ity_I64)

def gen_SIGSYS (cond : IRExpr) (s : EmitSt) : EmitSt := exit cond IRJumpKind.Ijk_SigSYS 4 s

def gen_SIGBUS (cond : IRExpr) (s : EmitSt) : EmitSt := exit cond IRJumpKind.Ijk_SigBUS 4 s

/- ---------------- Rounding mode and FCSR maintenance ---------------- -/

/- Translate the architectural rounding mode (FCSR bits 8..9) to the IR
   encoding: rm = XOR(rm, (rm << 1) & 2). -/
def get_rounding_mode (s : EmitSt) : IRExpr × EmitSt :=
  let fcsr := getFCSR 0
  let shr := binop IROp.Iop_Shr32 fcsr (mkU8 8)
  let (rm, s1) := newTemp IRType.Ity_I32 s
  let s2 := assign rm (binop IROp.Iop_And32 shr (mkU32 0x3)) s1
  let shl := binop IROp.Iop_Shl32 (mkexpr rm) (mkU8 1)
  let andE := binop IROp.Iop_And32 shl (mkU32 2)
  (binop IROp.Iop_Xor32 (mkexpr rm) andE, s2)

/- Schedule the FCSR Flags and Cause update through the external helper.
   The source asserts nargs is 1, 2 or 3. -/
def calculateFCSR (op : fpop) (nargs src1 src2 src3 : Nat) (s : EmitSt) : EmitSt :=
  let s1 := unop IROp.Iop_ReinterpF64asI64 (getFReg64 src1)
  let s2 := if 2 ≤ nargs then unop IROp.Iop_ReinterpF64asI64 (getFReg64 src2)
            else IRExpr.Null
  let s3 := if 3 ≤ nargs then unop IROp.Iop_ReinterpF64asI64 (getFReg64 src3)
            else IRExpr.Null
  let call := IRExpr.CCall HelperFn.loongarch64_calculate_FCSR (IRExpr.FpopTag op) s1 s2 s3
  let (fcsr2, s') := newTemp IRType.Ity_I32 s
  let s'' := assign fcsr2 (unop IROp.Iop_64to32 call) s'
  putFCSR 2 (mkexpr fcsr2) s''

def gen_round_to_nearest : IRExpr := mkU32 0x0

def gen_round_down : IRExpr := mkU32 0x1

def gen_round_up : IRExpr := mkU32 0x2

def gen_round_to_zero : IRExpr := mkU32 0x3

/- ---------------- FP comparison emitters ---------------- -/

def is_UN (e : IRExpr) : IRExpr := binop IROp.Iop_CmpEQ32 e (mkU32 0x45)

def is_LT (e : IRExpr) : IRExpr := binop IROp.Iop_CmpEQ32 e (mkU32 0x1)

def is_GT (e : IRExpr) : IRExpr := binop IROp.Iop_CmpEQ32 e (mkU32 0x0)

def is_EQ (e : IRExpr) : IRExpr := binop IROp.Iop_CmpEQ32 e (mkU32 0x40)

/- Build one of the 22 fcmp.cond variants: compare to the LOONGARCH-encoded
   category (0x45 UN, 0x01 LT, 0x00 GT, 0x40 EQ), evaluate the predicate,
   then widen the 1-bit result to 8 bits and write condition-code cc. -/
def gen_fcmp_cond_helper (op : fpop) (cc fj fk : Nat) (size64 : Bool) (s : EmitSt) :
    Bool × EmitSt :=
  let (result, s1) := newTemp IRType.Ity_I32 s
  let s2 := assign result
    (if size64 then binop IROp.Iop_CmpF64 (getFReg64 fj) (getFReg64 fk)
     else binop IROp.Iop_CmpF32 (getFReg32 fj) (getFReg32 fk)) s1
  let pred : Option IRExpr :=
    match op with
    | fpop.FCMP_CAF_S | fpop.FCMP_CAF_D | fpop.FCMP_SAF_S | fpop.FCMP_SAF_D =>
      some (mkU1 0)
    | fpop.FCMP_CLT_S | fpop.FCMP_CLT_D | fpop.FCMP_SLT_S | fpop.FCMP_SLT_D =>
      some (is_LT (mkexpr result))
    | fpop.FCMP_CEQ_S | fpop.FCMP_CEQ_D | fpop.FCMP_SEQ_S | fpop.FCMP_SEQ_D =>
      some (is_EQ (mkexpr result))
    | fpop.FCMP_CLE_S | fpop.FCMP_CLE_D | fpop.FCMP_SLE_S | fpop.FCMP_SLE_D =>
      some (binop IROp.Iop_Or1 (is_LT (mkexpr result)) (is_EQ (mkexpr result)))
    | fpop.FCMP_CUN_S | fpop.FCMP_CUN_D | fpop.FCMP_SUN_S | fpop.FCMP_SUN_D =>
      some (is_UN (mkexpr result))
    | fpop.FCMP_CULT_S | fpop.FCMP_CULT_D | fpop.FCMP_SULT_S | fpop.FCMP_SULT_D =>
      some (binop IROp.Iop_Or1 (is_UN (mkexpr result)) (is_LT (mkexpr result)))
    | fpop.FCMP_CUEQ_S | fpop.FCMP_CUEQ_D | fpop.FCMP_SUEQ_S | fpop.FCMP_SUEQ_D =>
      some (binop IROp.Iop_Or1 (is_UN (mkexpr result)) (is_EQ (mkexpr result)))
    | fpop.FCMP_CULE_S | fpop.FCMP_CULE_D | fpop.FCMP_SULE_S | fpop.FCMP_SULE_D =>
      some (binop IROp.Iop_Or1 (is_UN (mkexpr result))
              (binop IROp.Iop_Or1 (is_LT (mkexpr result)) (is_EQ (mkexpr result))))
    | fpop.FCMP_CNE_S | fpop.FCMP_CNE_D | fpop.FCMP_SNE_S | fpop.FCMP_SNE_D =>
      some (binop IROp.Iop_Or1 (is_GT (mkexpr result)) (is_LT (mkexpr result)))
    | fpop.FCMP_COR_S | fpop.FCMP_COR_D | fpop.FCMP_SOR_S | fpop.FCMP_SOR_D =>
      some (binop IROp.Iop_Or1 (is_GT (mkexpr result))
              (binop IROp.Iop_Or1 (is_LT (mkexpr result)) (is_EQ (mkexpr result))))
    | fpop.FCMP_CUNE_S | fpop.FCMP_CUNE_D | fpop.FCMP_SUNE_S | fpop.FCMP_SUNE_D =>
      some (binop IROp.Iop_Or1 (is_UN (mkexpr result))
              (binop IROp.Iop_Or1 (is_GT (mkexpr result)) (is_LT (mkexpr result))))
    | _ => none
  match pred with
  | none => (false, s2)
  | some e =>
    let s3 := calculateFCSR op 2 fj fk 0 s2
    (true, putFCC cc (unop IROp.Iop_1Uto8 e) s3)

/- ---------------- FP conversion emitters ---------------- -/

/- FCSR bits 16..20 are the Flags; bit 18 is overflow, bit 20 invalid. -/
def is_Invalid_Overflow : IRExpr :=
  let fcsr := getFCSR 0
  let shr := binop IROp.Iop_Shr32 fcsr (mkU8 16)
  let andE := binop IROp.Iop_And32 shr (mkU32 0x14)
  binop IROp.Iop_CmpNE32 andE (getIReg32 0)

def gen_convert_s_helper (op : fpop) (fd fj : Nat) (s : EmitSt) : Bool × EmitSt :=
  let res : Option (IRExpr × EmitSt) :=
    match op with
    | fpop.FTINTRM_W_S =>
      some (binop IROp.Iop_F32toI32S gen_round_down (getFReg32 fj), s)
    | fpop.FTINTRM_W_D =>
      some (binop IROp.Iop_F64toI32S gen_round_down (getFReg64 fj), s)
    | fpop.FTINTRP_W_S =>
      some (binop IROp.Iop_F32toI32S gen_round_up (getFReg32 fj), s)
    | fpop.FTINTRP_W_D =>
      some (binop IROp.Iop_F64toI32S gen_round_up (getFReg64 fj), s)
    | fpop.FTINTRZ_W_S =>
      some (binop IROp.Iop_F32toI32S gen_round_to_zero (getFReg32 fj), s)
    | fpop.FTINTRZ_W_D =>
      some (binop IROp.Iop_F64toI32S gen_round_to_zero (getFReg64 fj), s)
    | fpop.FTINTRNE_W_S =>
      some (binop IROp.Iop_F32toI32S gen_round_to_nearest (getFReg32 fj), s)
    | fpop.FTINTRNE_W_D =>
      some (binop IROp.Iop_F64toI32S gen_round_to_nearest (getFReg64 fj), s)
    | fpop.FTINT_W_S =>
      let (rm, s1) := get_rounding_mode s
      some (binop IROp.Iop_F32toI32S rm (getFReg32 fj), s1)
    | fpop.FTINT_W_D =>
      let (rm, s1) := get_rounding_mode s
      some (binop IROp.Iop_F64toI32S rm (getFReg64 fj), s1)
    | _ => none
  match res with
  | none => (false, s)
  | some (e, s1) =>
    let s2 := calculateFCSR op 1 fj 0 0 s1
    let ite := IRExpr.ITE is_Invalid_Overflow (mkU32 0x7fffffff) e
    (true, putFReg32 fd (unop IROp.Iop_ReinterpI32asF32 ite) s2)

def gen_convert_d_helper (op : fpop) (fd fj : Nat) (s : EmitSt) : Bool × EmitSt :=
  let res : Option (IRExpr × EmitSt) :=
    match op with
    | fpop.FTINTRM_L_S =>
      some (binop IROp.Iop_F32toI64S gen_round_down (getFReg32 fj), s)
    | fpop.FTINTRM_L_D =>
      some (binop IROp.Iop_F64toI64S gen_round_down (getFReg64 fj), s)
    | fpop.FTINTRP_L_S =>
      some (binop IROp.Iop_F32toI64S gen_round_up (getFReg32 fj), s)
    | fpop.FTINTRP_L_D =>
      some (binop IROp.Iop_F64toI64S gen_round_up (getFReg64 fj), s)
    | fpop.FTINTRZ_L_S =>
      some (binop IROp.Iop_F32toI64S gen_round_to_zero (getFReg32 fj), s)
    | fpop.FTINTRZ_L_D =>
      some (binop IROp.Iop_F64toI64S gen_round_to_zero (getFReg64 fj), s)
    | fpop.FTINTRNE_L_S =>
      some (binop IROp.Iop_F32toI64S gen_round_to_nearest (getFReg32 fj), s)
    | fpop.FTINTRNE_L_D =>
      some (binop IROp.Iop_F64toI64S gen_round_to_nearest (getFReg64 fj), s)
    | fpop.FTINT_L_S =>
      let (rm, s1) := get_rounding_mode s
      some (binop IROp.Iop_F32toI64S rm (getFReg32 fj), s1)
    | fpop.FTINT_L_D =>
      let (rm, s1) := get_rounding_mode s
      some (binop IROp.Iop_F64toI64S rm (getFReg64 fj), s1)
    | _ => none
  match res with
  | none => (false, s)
  | some (e, s1) =>
    let s2 := calculateFCSR op 1 fj 0 0 s1
    let ite := IRExpr.ITE is_Invalid_Overflow (mkU64 0x7fffffffffffffff) e
    (true, putFReg64 fd (unop IROp.Iop_ReinterpI64asF64 ite) s2)

/- HW-capability bits of VexArchInfo.hwcaps consulted by the emitters. -/
structure VexArchInfo where
  hwcaps_FP : Bool
  hwcaps_LAM : Bool
  hwcaps_UAL : Bool
deriving DecidableEq

inductive WhatNext
  | Dis_Continue | Dis_StopHere
deriving DecidableEq

inductive DisHint
  | Dis_HintNone
deriving DecidableEq

structure DisResult where
  whatNext : WhatNext
  len : Nat
  jk_StopHere : IRJumpKind
  hint : DisHint
deriving DecidableEq

def gen_fcvt_s_d (dres : DisResult) (insn : Nat) (archinfo : VexArchInfo)
    (s : EmitSt) : Bool × DisResult × EmitSt :=
  let fj := get_fj insn
  let fd := get_fd insn
  if !archinfo.hwcaps_FP then
    (true, ⟨WhatNext.Dis_StopHere, dres.len, IRJumpKind.Ijk_SigILL, dres.hint⟩, s)
  else
    let s1 := calculateFCSR fpop.FCVT_S_D 1 fj 0 0 s
    let (rm, s2) := get_rounding_mode s1
    (true, dres, putFReg32 fd (binop IROp.Iop_F64toF32 rm (getFReg64 fj)) s2)

def gen_fcvt_d_s (dres : DisResult) (insn : Nat) (archinfo : VexArchInfo)
    (s : EmitSt) : Bool × DisResult × EmitSt :=
  let fj := get_fj insn
  let fd := get_fd insn
  if !archinfo.hwcaps_FP then
    (true, ⟨WhatNext.Dis_StopHere, dres.len, IRJumpKind.Ijk_SigILL, dres.hint⟩, s)
  else
    let s1 := calculateFCSR fpop.FCVT_D_S 1 fj 0 0 s
    (true, dres, putFReg64 fd (unop IROp.Iop_F32toF64 (getFReg32 fj)) s1)

/- ---------------- Software-fallback store-conditional ---------------- -/

/- Fallback sc.w / sc.d: read-and-clear LLSC_SIZE, then fail (exit to the
   next instruction, offset 4) on size mismatch, address mismatch, data
   mismatch or CAS failure; on success write 1 to rd. rd is preset to 0. -/
def gen_sc_helper (rd rj si14 : Nat) (size64 : Bool) (s : EmitSt) : Bool × EmitSt :=
  let (addr, s1) := newTemp IRType.Ity_I64 s
  let s2 := assign addr (binop IROp.Iop_Add64 (getIReg64 rj)
                           (mkU64 (extend64 (si14 <<< 2) 16))) s1
  let s3 := if size64 then gen_SIGBUS (check_align (mkexpr addr) (mkU64 0x7)) s2
            else gen_SIGBUS (check_align (mkexpr addr) (mkU64 0x3)) s2
  let (nw, s4) := if size64 then newTemp IRType.Ity_I64 s3 else newTemp IRType.Ity_I32 s3
  let s5 := assign nw (if size64 then getIReg64 rd else getIReg32 rd) s4
  let s6 := putIReg rd (mkU64 0) s5
  let (size, s7) := newTemp IRType.Ity_I64 s6
  let s8 := assign size (IRExpr.Get GuestReg.LLSC_SIZE IRType.Ity_I64) s7
  let s9 := stmt (IRStmt.Put GuestReg.LLSC_SIZE (mkU64 0)) s8
  let s10 :=
    if size64 then
      exit (binop IROp.Iop_CmpNE64 (mkexpr size) (mkU64 8)) IRJumpKind.Ijk_Boring 4 s9
    else
      exit (binop IROp.Iop_CmpNE64 (mkexpr size) (mkU64 4)) IRJumpKind.Ijk_Boring 4 s9
  let s11 := exit (binop IROp.Iop_CmpNE64 (mkexpr addr)
                     (IRExpr.Get GuestReg.LLSC_ADDR IRType.Ity_I64))
               IRJumpKind.Ijk_Boring 4 s10
  let (data, s14) :=
    if size64 then
      let (data, s12) := newTemp IRType.Ity_I64 s11
      let s13 := assign data (IRExpr.Get GuestReg.LLSC_DATA IRType.Ity_I64) s12
      let d := load IRType.Ity_I64 (mkexpr addr)
      (data, exit (binop IROp.Iop_CmpNE64 d (mkexpr data)) IRJumpKind.Ijk_Boring 4 s13)
    else
      let (data, s12a) := newTemp IRType.Ity_I32 s11
      let (tmp, s12b) := newTemp IRType.Ity_I64 s12a
      let s13a := assign tmp (IRExpr.Get GuestReg.LLSC_DATA IRType.Ity_I64) s12b
      let s13b := assign data (unop IROp.Iop_64to32 (mkexpr tmp)) s13a
      let d := extendS IRType.Ity_I32 (load IRType.Ity_I32 (mkexpr addr))
      (data, exit (binop IROp.Iop_CmpNE64 d (mkexpr tmp)) IRJumpKind.Ijk_Boring 4 s13b)
  let (old, s15) := if size64 then newTemp IRType.Ity_I64 s14 else newTemp IRType.Ity_I32 s14
  let s16 := cas old (mkexpr addr) (mkexpr data) (mkexpr nw) s15
  let s17 :=
    if size64 then
      exit (binop IROp.Iop_CasCmpNE64 (mkexpr old) (mkexpr data)) IRJumpKind.Ijk_Boring 4 s16
    else
      exit (binop IROp.Iop_CasCmpNE32 (mkexpr old) (mkexpr data)) IRJumpKind.Ijk_Boring 4 s16
  (true, putIReg rd (mkU64 1) s17)

/- ---------------- Atomic memory operations ---------------- -/

inductive amop
  | AMSWAP | AMADD | AMAND | AMOR | AMXOR | AMMAX | AMMIN | AMMAX_U | AMMIN_U
deriving DecidableEq

/- am*.w family: optional leading fence (the _db variants), alignment
   check, load the old value, compute the new value, CAS, retry the same
   instruction (guarded exit, offset 0) on CAS failure, write the
   sign-extended old value to rd, optional trailing fence.  The enum
   switch default of the source returns False; the Lean match is total
   over amop, which covers exactly the reachable cases. -/
/- The new-value expression of the am*.w switch, over the temps o (old
   value) and n (operand register). -/
def am_w_expr (op : amop) (o n : Nat) : IRExpr :=
  match op with
  | amop.AMSWAP => mkexpr n
  | amop.AMADD => binop IROp.Iop_Add32 (mkexpr o) (mkexpr n)
  | amop.AMAND => binop IROp.Iop_And32 (mkexpr o) (mkexpr n)
  | amop.AMOR => binop IROp.Iop_Or32 (mkexpr o) (mkexpr n)
  | amop.AMXOR => binop IROp.Iop_Xor32 (mkexpr o) (mkexpr n)
  | amop.AMMAX =>
    IRExpr.ITE (binop IROp.Iop_CmpLT32S (mkexpr n) (mkexpr o)) (mkexpr o) (mkexpr n)
  | amop.AMMIN =>
    IRExpr.ITE (binop IROp.Iop_CmpLT32S (mkexpr o) (mkexpr n)) (mkexpr o) (mkexpr n)
  | amop.AMMAX_U =>
    IRExpr.ITE (binop IROp.Iop_CmpLT32U (mkexpr n) (mkexpr o)) (mkexpr o) (mkexpr n)
  | amop.AMMIN_U =>
    IRExpr.ITE (binop IROp.Iop_CmpLT32U (mkexpr o) (mkexpr n)) (mkexpr o) (mkexpr n)

def gen_am_w_helper (op : amop) (fence : Bool) (rd rj rk : Nat) (s : EmitSt) :
    Bool × EmitSt :=
  let s0 := if fence then stmt IRStmt.MBE s else s
  let (addr, s1) := newTemp IRType.Ity_I64 s0
  let s2 := assign addr (getIReg64 rj) s1
  let s3 := gen_SIGBUS (check_align (mkexpr addr) (mkU64 0x3)) s2
  let (o, s4) := newTemp IRType.Ity_I32 s3
  let s5 := assign o (load IRType.Ity_I32 (mkexpr addr)) s4
  let (n, s6) := newTemp IRType.Ity_I32 s5
  let s7 := assign n (getIReg32 rk) s6
  let (old, s8) := newTemp IRType.Ity_I32 s7
  let s9 := cas old (mkexpr addr) (mkexpr o) (am_w_expr op o n) s8
  let s10 := exit (binop IROp.Iop_CasCmpNE32 (mkexpr old) (mkexpr o))
               IRJumpKind.Ijk_Boring 0 s9
  let s11 := putIReg rd (extendS IRType.Ity_I32 (mkexpr o)) s10
  (true, if fence then stmt IRStmt.MBE s11 else s11)

/- am*.d family; same shape at 64 bits, with no extension on the old
   value written to rd. -/
/- The new-value expression of the am*.d switch. -/
def am_d_expr (op : amop) (o n : Nat) : IRExpr :=
  match op with
  | amop.AMSWAP => mkexpr n
  | amop.AMADD => binop IROp.Iop_Add64 (mkexpr o) (mkexpr n)
  | amop.AMAND => binop IROp.Iop_And64 (mkexpr o) (mkexpr n)
  | amop.AMOR => binop IROp.Iop_Or64 (mkexpr o) (mkexpr n)
  | amop.AMXOR => binop IROp.Iop_Xor64 (mkexpr o) (mkexpr n)
  | amop.AMMAX =>
    IRExpr.ITE (binop IROp.Iop_CmpLT64S (mkexpr n) (mkexpr o)) (mkexpr o) (mkexpr n)
  | amop.AMMIN =>
    IRExpr.ITE (binop IROp.Iop_CmpLT64S (mkexpr o) (mkexpr n)) (mkexpr o) (mkexpr n)
  | amop.AMMAX_U =>
    IRExpr.ITE (binop IROp.Iop_CmpLT64U (mkexpr n) (mkexpr o)) (mkexpr o) (mkexpr n)
  | amop.AMMIN_U =>
    IRExpr.ITE (binop IROp.Iop_CmpLT64U (mkexpr o) (mkexpr n)) (mkexpr o) (mkexpr n)

def gen_am_d_helper (op : amop) (fence : Bool) (rd rj rk : Nat) (s : EmitSt) :
    Bool × EmitSt :=
  let s0 := if fence then stmt IRStmt.MBE s else s
  let (addr, s1) := newTemp IRType.Ity_I64 s0
  let s2 := assign addr (getIReg64 rj) s1
  let s3 := gen_SIGBUS (check_align (mkexpr addr) (mkU64 0x7)) s2
  let (o, s4) := newTemp IRType.Ity_I64 s3
  let s5 := assign o (load IRType.Ity_I64 (mkexpr addr)) s4
  let (n, s6) := newTemp IRType.Ity_I64 s5
  let s7 := assign n (getIReg64 rk) s6
  let (old, s8) := newTemp IRType.Ity_I64 s7
  let s9 := cas old (mkexpr addr) (mkexpr o) (am_d_expr op o n) s8
  let s10 := exit (binop IROp.Iop_CasCmpNE64 (mkexpr old) (mkexpr o))
               IRJumpKind.Ijk_Boring 0 s9
  let s11 := putIReg rd (mkexpr o) s10
  (true, if fence then stmt IRStmt.MBE s11 else s11)

/- ---------------- Bounds asserts ---------------- -/

/- asrtle.d: SIGSYS if rk < rj (unsigned).  The dres, archinfo and abiinfo
   parameters of the source emitter are unused in its body. -/
def gen_asrtle_d (insn : Nat) (s : EmitSt) : Bool × EmitSt :=
  let rk := get_rk insn
  let rj := get_rj insn
  (true, gen_SIGSYS (binop IROp.Iop_CmpLT64U (getIReg64 rk) (getIReg64 rj)) s)

/- asrtgt.d: SIGSYS if rj <= rk (unsigned). -/
def gen_asrtgt_d (insn : Nat) (s : EmitSt) : Bool × EmitSt :=
  let rk := get_rk insn
  let rj := get_rj insn
  (true, gen_SIGSYS (binop IROp.Iop_CmpLE64U (getIReg64 rj) (getIReg64 rk)) s)

/- ---------------- Top-level decode skeleton ---------------- -/

/- The 16-byte magic preamble check at the head of
   disInstr_LOONGARCH64_WRK_special. -/
def isSpecialPreamble (code : Nat → Nat) : Bool :=
  getUInt code 0 == 0x00450c00 && getUInt code 4 == 0x00453400 &&
  getUInt code 8 == 0x00457400 && getUInt code 12 == 0x00454c00

/- Recognize the 16-byte preamble plus one selector word.  An unknown
   selector after a matched preamble hits vassert(0); the model returns
   none for that aborted execution.  The IR-injection variant lets the
   framework append a fragment (vex_inject_ir), recorded here as the
   opaque InjectIR statement. -/
def disInstr_LOONGARCH64_WRK_special (code : Nat → Nat) (dres : DisResult)
    (s : EmitSt) : Option (Bool × DisResult × EmitSt) :=
  if isSpecialPreamble code then
    if getUInt code 16 == 0x001535ad then
      some (true, ⟨WhatNext.Dis_StopHere, 20, IRJumpKind.Ijk_ClientReq, dres.hint⟩,
            putPC (mkU64 (s.pc + 20)) s)
    else if getUInt code 16 == 0x001539ce then
      some (true, ⟨dres.whatNext, 20, dres.jk_StopHere, dres.hint⟩,
            putIReg 11 (IRExpr.Get GuestReg.NRADDR IRType.Ity_I64) s)
    else if getUInt code 16 == 0x00153def then
      some (true, ⟨WhatNext.Dis_StopHere, 20, IRJumpKind.Ijk_NoRedir, dres.hint⟩,
            putPC (getIReg64 20) (putIReg 1 (mkU64 (s.pc + 20)) s))
    else if getUInt code 16 == 0x00154210 then
      some (true, ⟨WhatNext.Dis_StopHere, 20, IRJumpKind.Ijk_InvalICache, dres.hint⟩,
            putPC (mkU64 (s.pc + 20))
              (stmt (IRStmt.Put GuestReg.CMLEN (mkU64 20))
                (stmt (IRStmt.Put GuestReg.CMSTART (mkU64 s.pc))
                  (stmt IRStmt.InjectIR s))))
    else none
  else some (false, dres, s)

/- Abstract behaviour of one of the two populated sub-decoder trees
   (disInstr_LOONGARCH64_WRK_00 / _01) on a given encoding: whether some
   emitter succeeded, the whatNext and jk_StopHere fields it left in the
   DisResult, and the statements it appended to the IRSB.  No code below
   these trees assigns dres->len or dres->hint (the only writes to len in
   the file are in the special recognizer, the WRK defaults, and the
   decode-failure path of the entry point), so the abstraction cannot
   touch them; the vasserts at the end of WRK check that a failing tree
   left the DisResult at its defaults, so on failure the DisResult is
   carried over unchanged. -/
structure EmUpd where
  ok : Bool
  whatNext : WhatNext
  jk : IRJumpKind
  emits : List IRStmt

/- disInstr_LOONGARCH64_WRK, with the two populated top-level dispatch
   arms abstracted as f00 / f01.  Encodings with bits 31..30 in 10 or 11
   fall to the default arm and fail without reaching any emitter. -/
def disInstr_LOONGARCH64_WRK (f00 f01 : Nat → EmUpd) (code : Nat → Nat)
    (s : EmitSt) : Option (Bool × DisResult × EmitSt) :=
  if s.pc % 4 ≠ 0 then none
  else
    match disInstr_LOONGARCH64_WRK_special code
        ⟨WhatNext.Dis_Continue, 4, IRJumpKind.Ijk_INVALID, DisHint.Dis_HintNone⟩ s with
    | none => none
    | some (true, d, s') => some (true, d, s')
    | some (false, d, s') =>
      match SLICE (getUInt code 0) 31 30 with
      | 0 =>
        if (f00 (getUInt code 0)).ok then
          some (true,
                ⟨(f00 (getUInt code 0)).whatNext, d.len, (f00 (getUInt code 0)).jk, d.hint⟩,
                ⟨s'.pc, s'.stmts ++ (f00 (getUInt code 0)).emits, s'.tmp⟩)
        else some (false, d, ⟨s'.pc, s'.stmts ++ (f00 (getUInt code 0)).emits, s'.tmp⟩)
      | 1 =>
        if (f01 (getUInt code 0)).ok then
          some (true,
                ⟨(f01 (getUInt code 0)).whatNext, d.len, (f01 (getUInt code 0)).jk, d.hint⟩,
                ⟨s'.pc, s'.stmts ++ (f01 (getUInt code 0)).emits, s'.tmp⟩)
        else some (false, d, ⟨s'.pc, s'.stmts ++ (f01 (getUInt code 0)).emits, s'.tmp⟩)
      | _ => some (false, d, s')

/- The top-level entry point: run the worker; on success append
   PC := PC + len when continuing; on decode failure rewrite PC to the
   current instruction address and report len 0, StopHere, NoDecode.
   The Bool of the result is the worker's success flag (the source
   branches on it to choose between these two epilogues). -/
def disInstr_LOONGARCH64 (f00 f01 : Nat → EmUpd) (code : Nat → Nat)
    (guest_IP : Nat) (irsb0 : List IRStmt) (tmp0 : Nat) :
    Option (Bool × DisResult × EmitSt) :=
  match disInstr_LOONGARCH64_WRK f00 f01 code ⟨guest_IP, irsb0, tmp0⟩ with
  | none => none
  | some (ok, dres, s') =>
    if ok then
      if dres.len = 4 ∨ dres.len = 20 then
        match dres.whatNext with
        | WhatNext.Dis_Continue =>
          some (true, dres, putPC (mkU64 (dres.len + s'.pc)) s')
        | WhatNext.Dis_StopHere => some (true, dres, s')
      else none
    else
      some (false, ⟨WhatNext.Dis_StopHere, 0, IRJumpKind.Ijk_NoDecode, dres.hint⟩,
            putPC (mkU64 s'.pc) s')

/- ---------------- Semantics of the integer IR fragment ---------------- -/

/- Bit width of a guest-state access at the given IR type; FP registers
   hold raw bit patterns. -/
def tysize (ty : IRType) : Nat :=
  match ty with
  | IRType.Ity_I1 => 1
  | IRType.Ity_I8 => 8
  | IRType.Ity_I16 => 16
  | IRType.Ity_I32 => 32
  | IRType.Ity_I64 => 64
  | IRType.Ity_F32 => 32
  | IRType.Ity_F64 => 64

/- Two's-complement reading of an unsigned w-bit value. -/
def toSigned (w n : Nat) : Int :=
  if n < 2 ^ (w - 1) then (n : Int) else (n : Int) - (2 : Int) ^ w

/- Sign-extend an unsigned w-bit value to an unsigned 64-bit value. -/
def sext64 (w n : Nat) : Nat :=
  if n < 2 ^ (w - 1) then n else n + (2 ^ 64 - 2 ^ w)

/- Evaluate the integer fragment of the IR expression language in a guest
   state and a temporary environment.  Floating-point operations, memory
   loads and helper calls are outside the modelled fragment and evaluate
   to none. -/
def evalE (σ : GuestReg → Nat) (τ : Nat → Nat) : IRExpr → Option Nat
  | IRExpr.Get r ty => some (σ r % 2 ^ tysize ty)
  | IRExpr.RdTmp t => some (τ t)
  | IRExpr.U1 n => some (n % 2)
  | IRExpr.U8 n => some (n % 2 ^ 8)
  | IRExpr.U32 n => some (n % 2 ^ 32)
  | IRExpr.U64 n => some (n % 2 ^ 64)
  | IRExpr.Unop op a =>
    match evalE σ τ a with
    | none => none
    | some v =>
      match op with
      | IROp.Iop_1Uto8 => some (v % 2)
      | IROp.Iop_1Uto64 => some (v % 2)
      | IROp.Iop_64to32 => some (v % 2 ^ 32)
      | IROp.Iop_8Uto64 => some (v % 2 ^ 8)
      | IROp.Iop_16Uto64 => some (v % 2 ^ 16)
      | IROp.Iop_32Uto64 => some (v % 2 ^ 32)
      | IROp.Iop_1Sto64 => some (sext64 1 (v % 2))
      | IROp.Iop_8Sto64 => some (sext64 8 (v % 2 ^ 8))
      | IROp.Iop_16Sto64 => some (sext64 16 (v % 2 ^ 16))
      | IROp.Iop_32Sto64 => some (sext64 32 (v % 2 ^ 32))
      | IROp.Iop_ReinterpF64asI64 => some v
      | IROp.Iop_ReinterpI64asF64 => some v
      | IROp.Iop_ReinterpF32asI32 => some v
      | IROp.Iop_ReinterpI32asF32 => some v
      | _ => none
  | IRExpr.Binop op a b =>
    match evalE σ τ a, evalE σ τ b with
    | some x, some y =>
      match op with
      | IROp.Iop_Add32 => some ((x + y) % 2 ^ 32)
      | IROp.Iop_Add64 => some ((x + y) % 2 ^ 64)
      | IROp.Iop_And32 => some ((x &&& y) % 2 ^ 32)
      | IROp.Iop_And64 => some ((x &&& y) % 2 ^ 64)
      | IROp.Iop_Or32 => some ((x ||| y) % 2 ^ 32)
      | IROp.Iop_Or64 => some ((x ||| y) % 2 ^ 64)
      | IROp.Iop_Xor32 => some ((x ^^^ y) % 2 ^ 32)
      | IROp.Iop_Xor64 => some ((x ^^^ y) % 2 ^ 64)
      | IROp.Iop_Shl32 => some ((x <<< y) % 2 ^ 32)
      | IROp.Iop_Shr32 => some ((x >>> y) % 2 ^ 32)
      | IROp.Iop_Or1 => some ((x ||| y) % 2)
      | IROp.Iop_CmpEQ32 => some (if x = y then 1 else 0)
      | IROp.Iop_CmpNE32 => some (if x ≠ y then 1 else 0)
      | IROp.Iop_CmpNE64 => some (if x ≠ y then 1 else 0)
      | IROp.Iop_CasCmpNE32 => some (if x ≠ y then 1 else 0)
      | IROp.Iop_CasCmpNE64 => some (if x ≠ y then 1 else 0)
      | IROp.Iop_CmpLT32U => some (if x < y then 1 else 0)
      | IROp.Iop_CmpLT64U => some (if x < y then 1 else 0)
      | IROp.Iop_CmpLE64U => some (if x ≤ y then 1 else 0)
      | IROp.Iop_CmpLT32S => some (if toSigned 32 x < toSigned 32 y then 1 else 0)
      | IROp.Iop_CmpLT64S => some (if toSigned 64 x < toSigned 64 y then 1 else 0)
      | _ => none
    | _, _ => none
  | IRExpr.ITE c t f =>
    match evalE σ τ c with
    | none => none
    | some v => if v ≠ 0 then evalE σ τ t else evalE σ τ f
  | IRExpr.Load _ _ => none
  | IRExpr.CCall _ _ _ _ _ => none
  | IRExpr.FpopTag _ => none
  | IRExpr.Null => none

def updReg (σ : GuestReg → Nat) (r : GuestReg) (v : Nat) : GuestReg → Nat :=
  fun r' => if r' = r then v else σ r'

def updTemp (τ : Nat → Nat) (t v : Nat) : Nat → Nat :=
  fun t' => if t' = t then v else τ t'

/- Run a straight-line statement list: guest-state writes and temp writes
   update the environments; a guarded exit whose guard evaluates to a
   nonzero value stops execution, reporting the jump kind and target.
   Memory-touching statements (Store, CAS, LLSC) and injected IR are
   outside the modelled fragment: executing one yields none, so a run
   that returns some value touched no memory. -/
def exec : List IRStmt → (GuestReg → Nat) → (Nat → Nat) →
    Option ((GuestReg → Nat) × (Nat → Nat) × Option (IRJumpKind × Nat))
  | [], σ, τ => some (σ, τ, none)
  | st :: rest, σ, τ =>
    match st with
    | IRStmt.Put r e =>
      match evalE σ τ e with
      | none => none
      | some v => exec rest (updReg σ r v) τ
    | IRStmt.WrTmp t e =>
      match evalE σ τ e with
      | none => none
      | some v => exec rest σ (updTemp τ t v)
    | IRStmt.Exit g jk dst _ =>
      match evalE σ τ g with
      | none => none
      | some v => if v = 0 then exec rest σ τ else some (σ, τ, some (jk, dst))
    | IRStmt.MBE => exec rest σ τ
    | _ => none

/- ---------------- Observation helpers over emitted IR ---------------- -/

/- The guarded exits of a statement list, as jump-kind and target pairs. -/
def exits (l : List IRStmt) : List (IRJumpKind × Nat) :=
  l.filterMap fun st =>
    match st with
    | IRStmt.Exit _ jk dst _ => some (jk, dst)
    | _ => none

/- Whether an expression reads the given guest-state field. -/
def exprReadsGuest (r : GuestReg) : IRExpr → Bool
  | IRExpr.Get r' _ => r' == r
  | IRExpr.Unop _ a => exprReadsGuest r a
  | IRExpr.Binop _ a b => exprReadsGuest r a || exprReadsGuest r b
  | IRExpr.Load _ a => exprReadsGuest r a
  | IRExpr.ITE c t f => exprReadsGuest r c || exprReadsGuest r t || exprReadsGuest r f
  | IRExpr.CCall _ a b c d =>
    exprReadsGuest r a || exprReadsGuest r b || exprReadsGuest r c || exprReadsGuest r d
  | _ => false

def isMBEstmt (st : IRStmt) : Bool :=
  match st with
  | IRStmt.MBE => true
  | _ => false

def isCASstmt (st : IRStmt) : Bool :=
  match st with
  | IRStmt.CAS _ _ _ _ => true
  | _ => false

def isLoadTmp (st : IRStmt) : Bool :=
  match st with
  | IRStmt.WrTmp _ (IRExpr.Load _ _) => true
  | _ => false

/- The XOR-based rounding-mode reshuffle, as a function on the two-bit
   architectural field. -/
def rmMapLA (rm : Nat) : Nat := rm ^^^ ((rm <<< 1) &&& 2)

/- ======================= Theorems ======================= -/

/-- Claim C2: a write targeting integer register 0 appends no state-put
statement to the IRSB, and a write targeting any other register appends
exactly one put to that register, so no emitted IR ever puts register 0
and it continues to read as constant zero. -/
theorem claim2_putIReg_r0_noop (r : Nat) (e : IRExpr) (s : EmitSt) :
    (putIReg r e s).stmts
      = s.stmts ++ (if r = 0 then [] else [IRStmt.Put (GuestReg.R r) e]) ∧
    putIReg 0 e s = s := by
  constructor
  · by_cases h : r = 0 <;> simp [putIReg, stmt, offsetIReg, h]
  · simp [putIReg]

/-- Claim C10: asrtle.d emits a single SigSYS guarded exit (to the next
instruction) whose condition is the unsigned comparison rk < rj, and
asrtgt.d one whose condition is the unsigned comparison rj <= rk; on
64-bit register values the guards evaluate to exactly those unsigned
comparisons. -/
theorem claim10_asrt_unsigned (insn : Nat) (s : EmitSt) (σ : GuestReg → Nat)
    (τ : Nat → Nat)
    (hk : σ (GuestReg.R (get_rk insn)) < 2 ^ 64)
    (hj : σ (GuestReg.R (get_rj insn)) < 2 ^ 64) :
    (gen_asrtle_d insn s).1 = true ∧
    (gen_asrtle_d insn s).2.stmts = s.stmts ++
      [IRStmt.Exit
         (binop IROp.Iop_CmpLT64U (getIReg64 (get_rk insn)) (getIReg64 (get_rj insn)))
         IRJumpKind.Ijk_SigSYS ((s.pc + 4) % 2 ^ 64) GuestReg.PC] ∧
    evalE σ τ (binop IROp.Iop_CmpLT64U (getIReg64 (get_rk insn)) (getIReg64 (get_rj insn)))
      = some (if σ (GuestReg.R (get_rk insn)) < σ (GuestReg.R (get_rj insn))
              then 1 else 0) ∧
    (gen_asrtgt_d insn s).1 = true ∧
    (gen_asrtgt_d insn s).2.stmts = s.stmts ++
      [IRStmt.Exit
         (binop IROp.Iop_CmpLE64U (getIReg64 (get_rj insn)) (getIReg64 (get_rk insn)))
         IRJumpKind.Ijk_SigSYS ((s.pc + 4) % 2 ^ 64) GuestReg.PC] ∧
    evalE σ τ (binop IROp.Iop_CmpLE64U (getIReg64 (get_rj insn)) (getIReg64 (get_rk insn)))
      = some (if σ (GuestReg.R (get_rj insn)) ≤ σ (GuestReg.R (get_rk insn))
              then 1 else 0) := by
  refine ⟨rfl, ?_, ?_, rfl, ?_, ?_⟩
  · simp [gen_asrtle_d, gen_SIGSYS, exit, stmt]
  · simp only [evalE, getIReg64, binop, tysize, offsetIReg]
    rw [Nat.mod_eq_of_lt hk, Nat.mod_eq_of_lt hj]
  · simp [gen_asrtgt_d, gen_SIGSYS, exit, stmt]
  · simp only [evalE, getIReg64, binop, tysize, offsetIReg]
    rw [Nat.mod_eq_of_lt hj, Nat.mod_eq_of_lt hk]

/-- Witness for C10 at a concrete instruction and state. -/
theorem claim10_witness :
    (gen_asrtle_d 0 ⟨0, [], 0⟩).1 = true ∧
    (gen_asrtle_d 0 ⟨0, [], 0⟩).2.stmts = [] ++
      [IRStmt.Exit
         (binop IROp.Iop_CmpLT64U (getIReg64 (get_rk 0)) (getIReg64 (get_rj 0)))
         IRJumpKind.Ijk_SigSYS ((0 + 4) % 2 ^ 64) GuestReg.PC] ∧
    evalE (fun _ => 0) (fun _ => 0)
        (binop IROp.Iop_CmpLT64U (getIReg64 (get_rk 0)) (getIReg64 (get_rj 0)))
      = some (if (0 : Nat) < 0 then 1 else 0) ∧
    (gen_asrtgt_d 0 ⟨0, [], 0⟩).1 = true ∧
    (gen_asrtgt_d 0 ⟨0, [], 0⟩).2.stmts = [] ++
      [IRStmt.Exit
         (binop IROp.Iop_CmpLE64U (getIReg64 (get_rj 0)) (getIReg64 (get_rk 0)))
         IRJumpKind.Ijk_SigSYS ((0 + 4) % 2 ^ 64) GuestReg.PC] ∧
    evalE (fun _ => 0) (fun _ => 0)
        (binop IROp.Iop_CmpLE64U (getIReg64 (get_rj 0)) (getIReg64 (get_rk 0)))
      = some (if (0 : Nat) ≤ 0 then 1 else 0) :=
  claim10_asrt_unsigned 0 ⟨0, [], 0⟩ (fun _ => 0) (fun _ => 0)
    (by norm_num) (by norm_num)

theorem shiftRight_le_self (m n : Nat) : m >>> n ≤ m := by
  rw [Nat.shiftRight_eq_div_pow]
  exact Nat.div_le_self _ _

/-- Claim C6: get_rounding_mode extracts the two-bit field at FCSR bits
8..9 (the emitted temp assignment computes (fcsr >> 8) & 3) and the
returned expression evaluates to rm XOR ((rm << 1) AND 2) on that field;
on the four field values this realizes exactly the mapping 00 -> 00 (to
nearest), 01 -> 11 (to zero), 10 -> 10 (to +inf), 11 -> 01 (to -inf),
where the IR encodings are those of the gen_round_* constants. -/
theorem claim6_rounding_mode (s : EmitSt) (σ : GuestReg → Nat) (τ : Nat → Nat)
    (hw : σ GuestReg.FCSR < 2 ^ 32) :
    (get_rounding_mode s).2.stmts = s.stmts ++
      [IRStmt.WrTmp s.tmp
        (binop IROp.Iop_And32 (binop IROp.Iop_Shr32 (getFCSR 0) (mkU8 8)) (mkU32 3))] ∧
    evalE σ τ (binop IROp.Iop_And32 (binop IROp.Iop_Shr32 (getFCSR 0) (mkU8 8)) (mkU32 3))
      = some ((σ GuestReg.FCSR >>> 8) &&& 3) ∧
    evalE σ (updTemp τ s.tmp ((σ GuestReg.FCSR >>> 8) &&& 3)) (get_rounding_mode s).1
      = some (rmMapLA ((σ GuestReg.FCSR >>> 8) &&& 3)) ∧
    (rmMapLA 0 = 0 ∧ rmMapLA 1 = 3 ∧ rmMapLA 2 = 2 ∧ rmMapLA 3 = 1) ∧
    (gen_round_to_nearest = mkU32 (rmMapLA 0) ∧ gen_round_to_zero = mkU32 (rmMapLA 1) ∧
     gen_round_up = mkU32 (rmMapLA 2) ∧ gen_round_down = mkU32 (rmMapLA 3)) := by
  refine ⟨?_, ?_, ?_, by decide, by decide⟩
  · simp [get_rounding_mode, newTemp, assign, stmt, binop, getFCSR, mkU8, mkU32]
  · have e8 : (8 : ℕ) % 2 ^ 8 = 8 := by norm_num
    have e3 : (3 : ℕ) % 2 ^ 32 = 3 := by norm_num
    simp only [evalE, getFCSR, binop, mkU8, mkU32, tysize]
    rw [Nat.mod_eq_of_lt hw, e8, e3,
        Nat.mod_eq_of_lt (lt_of_le_of_lt (shiftRight_le_self _ 8) hw),
        Nat.mod_eq_of_lt (lt_of_le_of_lt Nat.and_le_right (by norm_num))]
  · have hla : (σ GuestReg.FCSR >>> 8) &&& 3 ≤ 3 := Nat.and_le_right
    generalize (σ GuestReg.FCSR >>> 8) &&& 3 = la at hla
    simp only [get_rounding_mode, newTemp, evalE, mkexpr, binop, mkU8, mkU32, updTemp,
               if_pos]
    interval_cases la <;> simp [rmMapLA] <;> decide

/-- Witness for C6 at a concrete state with FCSR rounding field 01. -/
theorem claim6_witness :
    ((get_rounding_mode ⟨0, [], 0⟩).2.stmts = [] ++
      [IRStmt.WrTmp 0
        (binop IROp.Iop_And32 (binop IROp.Iop_Shr32 (getFCSR 0) (mkU8 8)) (mkU32 3))] ∧
    evalE (fun r => if r = GuestReg.FCSR then 0x100 else 0) (fun _ => 0)
        (binop IROp.Iop_And32 (binop IROp.Iop_Shr32 (getFCSR 0) (mkU8 8)) (mkU32 3))
      = some ((((fun r => if r = GuestReg.FCSR then 0x100 else 0) GuestReg.FCSR) >>> 8) &&& 3) ∧
    evalE (fun r => if r = GuestReg.FCSR then 0x100 else 0)
        (updTemp (fun _ => 0) 0
          ((((fun r => if r = GuestReg.FCSR then 0x100 else 0) GuestReg.FCSR) >>> 8) &&& 3))
        (get_rounding_mode ⟨0, [], 0⟩).1
      = some (rmMapLA
          ((((fun r => if r = GuestReg.FCSR then 0x100 else 0) GuestReg.FCSR) >>> 8) &&& 3)) ∧
    (rmMapLA 0 = 0 ∧ rmMapLA 1 = 3 ∧ rmMapLA 2 = 2 ∧ rmMapLA 3 = 1) ∧
    (gen_round_to_nearest = mkU32 (rmMapLA 0) ∧ gen_round_to_zero = mkU32 (rmMapLA 1) ∧
     gen_round_up = mkU32 (rmMapLA 2) ∧ gen_round_down = mkU32 (rmMapLA 3))) :=
  claim6_rounding_mode ⟨0, [], 0⟩ (fun r => if r = GuestReg.FCSR then 0x100 else 0)
    (fun _ => 0) (by norm_num)

/- The statement shape emitted by an am*.w _db emitter. -/
theorem am_w_stmts (op : amop) (rd rj rk pc t0 : Nat) :
    (gen_am_w_helper op true rd rj rk ⟨pc, [], t0⟩).2.stmts =
      IRStmt.MBE ::
      (([IRStmt.WrTmp t0 (getIReg64 rj),
         IRStmt.Exit (check_align (mkexpr t0) (mkU64 0x3)) IRJumpKind.Ijk_SigBUS
           ((pc + 4) % 2 ^ 64) GuestReg.PC,
         IRStmt.WrTmp (t0 + 1) (load IRType.Ity_I32 (mkexpr t0)),
         IRStmt.WrTmp (t0 + 2) (getIReg32 rk),
         IRStmt.CAS (t0 + 3) (mkexpr t0) (mkexpr (t0 + 1)) (am_w_expr op (t0 + 1) (t0 + 2)),
         IRStmt.Exit (binop IROp.Iop_CasCmpNE32 (mkexpr (t0 + 3)) (mkexpr (t0 + 1)))
           IRJumpKind.Ijk_Boring ((pc + 0) % 2 ^ 64) GuestReg.PC] ++
        (if rd = 0 then [] else
           [IRStmt.Put (GuestReg.R rd) (extendS IRType.Ity_I32 (mkexpr (t0 + 1)))])) ++
       [IRStmt.MBE]) := by
  by_cases h : rd = 0 <;>
    simp [gen_am_w_helper, stmt, newTemp, assign, cas, exit, gen_SIGBUS, putIReg,
          offsetIReg, h]

/- The statement shape emitted by an am*.d _db emitter. -/
theorem am_d_stmts (op : amop) (rd rj rk pc t0 : Nat) :
    (gen_am_d_helper op true rd rj rk ⟨pc, [], t0⟩).2.stmts =
      IRStmt.MBE ::
      (([IRStmt.WrTmp t0 (getIReg64 rj),
         IRStmt.Exit (check_align (mkexpr t0) (mkU64 0x7)) IRJumpKind.Ijk_SigBUS
           ((pc + 4) % 2 ^ 64) GuestReg.PC,
         IRStmt.WrTmp (t0 + 1) (load IRType.Ity_I64 (mkexpr t0)),
         IRStmt.WrTmp (t0 + 2) (getIReg64 rk),
         IRStmt.CAS (t0 + 3) (mkexpr t0) (mkexpr (t0 + 1)) (am_d_expr op (t0 + 1) (t0 + 2)),
         IRStmt.Exit (binop IROp.Iop_CasCmpNE64 (mkexpr (t0 + 3)) (mkexpr (t0 + 1)))
           IRJumpKind.Ijk_Boring ((pc + 0) % 2 ^ 64) GuestReg.PC] ++
        (if rd = 0 then [] else
           [IRStmt.Put (GuestReg.R rd) (mkexpr (t0 + 1))])) ++
       [IRStmt.MBE]) := by
  by_cases h : rd = 0 <;>
    simp [gen_am_d_helper, stmt, newTemp, assign, cas, exit, gen_SIGBUS, putIReg,
          offsetIReg, h]

/- An _db atomic-memop statement list: one fence as the very first
   statement, one fence as the very last, and in between (which holds
   both the load of the old value and the CAS) no fence at all. -/
def dbFenceShape (l : List IRStmt) : Prop :=
  ∃ mid, l = IRStmt.MBE :: (mid ++ [IRStmt.MBE]) ∧
    mid.all (fun st => !isMBEstmt st) = true ∧
    mid.any isCASstmt = true ∧
    mid.any isLoadTmp = true

/-- Claim C5 (amended): every am* emitter with an _db suffix emits its two
fences as the first and the last statement of the sequence: one before
the load of the old value (not immediately before the CAS) and one after
the CAS on the success path; no fence appears between the load and the
CAS. -/
theorem claim5_amended_db_fences (op : amop) (rd rj rk pc t0 : Nat) :
    dbFenceShape (gen_am_w_helper op true rd rj rk ⟨pc, [], t0⟩).2.stmts ∧
    dbFenceShape (gen_am_d_helper op true rd rj rk ⟨pc, [], t0⟩).2.stmts := by
  constructor
  · rw [am_w_stmts]
    refine ⟨_, rfl, ?_, ?_, ?_⟩ <;> by_cases h : rd = 0 <;>
      simp [h, isMBEstmt, isCASstmt, isLoadTmp, load]
  · rw [am_d_stmts]
    refine ⟨_, rfl, ?_, ?_, ?_⟩ <;> by_cases h : rd = 0 <;>
      simp [h, isMBEstmt, isCASstmt, isLoadTmp, load]

/-- Counterexample for C5 as stated: in the emission of ammax-style _db
helpers (here amadd_db.w with rd=4, rj=5, rk=6 at pc 0) the statement
immediately preceding the CAS is the temp assignment of the operand
register, not a memory fence. -/
theorem claim5_counterexample_no_fence_before_cas :
    ((gen_am_w_helper amop.AMADD true 4 5 6 ⟨0, [], 0⟩).2.stmts)[5]?
        = some (IRStmt.CAS 3 (mkexpr 0) (mkexpr 1) (am_w_expr amop.AMADD 1 2)) ∧
    ((gen_am_w_helper amop.AMADD true 4 5 6 ⟨0, [], 0⟩).2.stmts)[4]?
        = some (IRStmt.WrTmp 2 (getIReg32 6)) ∧
    ((gen_am_w_helper amop.AMADD true 4 5 6 ⟨0, [], 0⟩).2.stmts)[4]?
        ≠ some IRStmt.MBE := by
  refine ⟨by decide, by decide, by decide⟩

/-- Claim C7: for the clt/slt comparisons the value written to
condition-code cd is the 1-bit predicate (category = LT) widened to 8
bits: on category UN (0x45, some operand NaN) it evaluates to 0 and on
category LT (0x01, ordered fj < fk) to 1; the U-prefixed cult/sult
predicate, by contrast, also accepts UN. -/
theorem claim7_fcmp_clt (cc fj fk : Nat) (sz : Bool) (s : EmitSt) (c : Nat)
    (σ : GuestReg → Nat) (τ : Nat → Nat) (op : fpop) :
    ((op = fpop.FCMP_CLT_S ∨ op = fpop.FCMP_CLT_D ∨
      op = fpop.FCMP_SLT_S ∨ op = fpop.FCMP_SLT_D) →
      (gen_fcmp_cond_helper op cc fj fk sz s).1 = true ∧
      (gen_fcmp_cond_helper op cc fj fk sz s).2.stmts.getLast?
        = some (IRStmt.Put (GuestReg.FCC cc)
                  (unop IROp.Iop_1Uto8 (is_LT (mkexpr s.tmp)))) ∧
      evalE σ (updTemp τ s.tmp c) (unop IROp.Iop_1Uto8 (is_LT (mkexpr s.tmp)))
        = some (if c = 1 then 1 else 0)) ∧
    ((op = fpop.FCMP_CULT_S ∨ op = fpop.FCMP_CULT_D ∨
      op = fpop.FCMP_SULT_S ∨ op = fpop.FCMP_SULT_D) →
      (gen_fcmp_cond_helper op cc fj fk sz s).1 = true ∧
      (gen_fcmp_cond_helper op cc fj fk sz s).2.stmts.getLast?
        = some (IRStmt.Put (GuestReg.FCC cc)
                  (unop IROp.Iop_1Uto8
                    (binop IROp.Iop_Or1 (is_UN (mkexpr s.tmp)) (is_LT (mkexpr s.tmp))))) ∧
      evalE σ (updTemp τ s.tmp c)
          (unop IROp.Iop_1Uto8
            (binop IROp.Iop_Or1 (is_UN (mkexpr s.tmp)) (is_LT (mkexpr s.tmp))))
        = some (if c = 0x45 ∨ c = 1 then 1 else 0)) := by
  have evLT : evalE σ (updTemp τ s.tmp c) (unop IROp.Iop_1Uto8 (is_LT (mkexpr s.tmp)))
      = some (if c = 1 then 1 else 0) := by
    by_cases h : c = 1 <;> simp [evalE, updTemp, is_LT, unop, binop, mkexpr, mkU32, h]
  have evULT : evalE σ (updTemp τ s.tmp c)
      (unop IROp.Iop_1Uto8
        (binop IROp.Iop_Or1 (is_UN (mkexpr s.tmp)) (is_LT (mkexpr s.tmp))))
      = some (if c = 0x45 ∨ c = 1 then 1 else 0) := by
    by_cases h1 : c = 0x45 <;> by_cases h2 : c = 1 <;>
      simp [evalE, updTemp, is_UN, is_LT, unop, binop, mkexpr, mkU32, h1, h2]
  constructor
  · rintro (rfl | rfl | rfl | rfl) <;>
      exact ⟨rfl, by simp [gen_fcmp_cond_helper, newTemp, assign, stmt, putFCC,
                           calculateFCSR, putFCSR], evLT⟩
  · rintro (rfl | rfl | rfl | rfl) <;>
      exact ⟨rfl, by simp [gen_fcmp_cond_helper, newTemp, assign, stmt, putFCC,
                           calculateFCSR, putFCSR], evULT⟩

/-- Witness for C7: with the category register holding UN (0x45), clt
writes 0 while cult writes 1. -/
theorem claim7_witness :
    ((gen_fcmp_cond_helper fpop.FCMP_CLT_S 0 1 2 false ⟨0, [], 0⟩).1 = true ∧
     (gen_fcmp_cond_helper fpop.FCMP_CLT_S 0 1 2 false ⟨0, [], 0⟩).2.stmts.getLast?
       = some (IRStmt.Put (GuestReg.FCC 0) (unop IROp.Iop_1Uto8 (is_LT (mkexpr 0)))) ∧
     evalE (fun _ => 0) (updTemp (fun _ => 0) 0 0x45)
         (unop IROp.Iop_1Uto8 (is_LT (mkexpr 0)))
       = some (if (0x45 : Nat) = 1 then 1 else 0)) ∧
    ((gen_fcmp_cond_helper fpop.FCMP_CULT_S 0 1 2 false ⟨0, [], 0⟩).1 = true ∧
     (gen_fcmp_cond_helper fpop.FCMP_CULT_S 0 1 2 false ⟨0, [], 0⟩).2.stmts.getLast?
       = some (IRStmt.Put (GuestReg.FCC 0)
                 (unop IROp.Iop_1Uto8
                   (binop IROp.Iop_Or1 (is_UN (mkexpr 0)) (is_LT (mkexpr 0))))) ∧
     evalE (fun _ => 0) (updTemp (fun _ => 0) 0 0x45)
         (unop IROp.Iop_1Uto8
           (binop IROp.Iop_Or1 (is_UN (mkexpr 0)) (is_LT (mkexpr 0))))
       = some (if (0x45 : Nat) = 0x45 ∨ (0x45 : Nat) = 1 then 1 else 0)) :=
  ⟨(claim7_fcmp_clt 0 1 2 false ⟨0, [], 0⟩ 0x45 (fun _ => 0) (fun _ => 0)
      fpop.FCMP_CLT_S).1 (Or.inl rfl),
   (claim7_fcmp_clt 0 1 2 false ⟨0, [], 0⟩ 0x45 (fun _ => 0) (fun _ => 0)
      fpop.FCMP_CULT_S).2 (Or.inl rfl)⟩

theorem and_twenty_mod32 (x : Nat) : x &&& 20 = (x % 2 ^ 5) &&& 20 := by
  apply Nat.eq_of_testBit_eq
  intro i
  rw [Nat.testBit_and, Nat.testBit_and, Nat.testBit_mod_two_pow]
  by_cases h : i < 5
  · simp [h]
  · have h20 : Nat.testBit 20 i = false :=
      Nat.testBit_lt_two_pow (lt_of_lt_of_le (by norm_num)
        (Nat.pow_le_pow_right (by norm_num) (Nat.le_of_not_lt h)))
    simp [h20]

theorem and_twenty_ne_zero (x : Nat) :
    (x &&& 20 ≠ 0) ↔ (x.testBit 2 = true ∨ x.testBit 4 = true) := by
  rw [and_twenty_mod32]
  have hb2 : x.testBit 2 = (x % 2 ^ 5).testBit 2 := by
    rw [Nat.testBit_mod_two_pow]
    simp
  have hb4 : x.testBit 4 = (x % 2 ^ 5).testBit 4 := by
    rw [Nat.testBit_mod_two_pow]
    simp
  rw [hb2, hb4]
  have h32 : x % 2 ^ 5 < 32 := by
    simpa using Nat.mod_lt x (show 0 < 2 ^ 5 by norm_num)
  revert h32
  generalize x % 2 ^ 5 = r
  revert r
  decide

/- Evaluating the FCSR Invalid/Overflow test: nonzero exactly when FCSR
   bit 18 (overflow) or bit 20 (invalid) is set, given that register 0
   reads as zero. -/
theorem is_Invalid_Overflow_eval (σ : GuestReg → Nat) (τ : Nat → Nat)
    (hR0 : σ (GuestReg.R 0) = 0) (hw : σ GuestReg.FCSR < 2 ^ 32) :
    evalE σ τ is_Invalid_Overflow
      = some (if (σ GuestReg.FCSR).testBit 18 = true ∨ (σ GuestReg.FCSR).testBit 20 = true
              then 1 else 0) := by
  have e16 : (16 : ℕ) % 2 ^ 8 = 16 := by norm_num
  have e20 : (20 : ℕ) % 2 ^ 32 = 20 := by norm_num
  simp only [is_Invalid_Overflow, getFCSR, getIReg32, offsetIReg, binop, mkU8, mkU32,
             evalE, tysize]
  rw [Nat.mod_eq_of_lt hw, e16, e20, hR0,
      Nat.mod_eq_of_lt (lt_of_le_of_lt (shiftRight_le_self _ 16) hw),
      Nat.mod_eq_of_lt (lt_of_le_of_lt Nat.and_le_right (by norm_num))]
  have hiff : (σ GuestReg.FCSR >>> 16 &&& 20 ≠ 0 % 2 ^ 32) ↔
      ((σ GuestReg.FCSR).testBit 18 = true ∨ (σ GuestReg.FCSR).testBit 20 = true) := by
    rw [Nat.zero_mod, and_twenty_ne_zero]
    simp [Nat.testBit_shiftRight]
  simp only [hiff]

/-- Claim C8: every ftint* emitter (both helpers, all rounding variants)
computes its final destination value by an ITE on the Invalid/Overflow
test after the FCSR helper call: the test reads FCSR bits 18 and 20, and
when either is set the destination receives the saturation constant
0x7fffffff (32-bit forms) or 0x7fffffffffffffff (64-bit forms)
reinterpreted as the FP result width, otherwise the computed
conversion. -/
theorem claim8_ftint_saturation (op op' : fpop) (fd fj : Nat) (s : EmitSt)
    (σ : GuestReg → Nat) (τ : Nat → Nat)
    (hR0 : σ (GuestReg.R 0) = 0) (hw : σ GuestReg.FCSR < 2 ^ 32)
    (hs : (gen_convert_s_helper op fd fj s).1 = true)
    (hd : (gen_convert_d_helper op' fd fj s).1 = true) :
    evalE σ τ is_Invalid_Overflow
      = some (if (σ GuestReg.FCSR).testBit 18 = true ∨ (σ GuestReg.FCSR).testBit 20 = true
              then 1 else 0) ∧
    (∃ e s₁, gen_convert_s_helper op fd fj s
        = (true, putFReg32 fd (unop IROp.Iop_ReinterpI32asF32
            (IRExpr.ITE is_Invalid_Overflow (mkU32 0x7fffffff) e))
            (calculateFCSR op 1 fj 0 0 s₁))) ∧
    (∃ e s₁, gen_convert_d_helper op' fd fj s
        = (true, putFReg64 fd (unop IROp.Iop_ReinterpI64asF64
            (IRExpr.ITE is_Invalid_Overflow (mkU64 0x7fffffffffffffff) e))
            (calculateFCSR op' 1 fj 0 0 s₁))) := by
  refine ⟨is_Invalid_Overflow_eval σ τ hR0 hw, ?_, ?_⟩
  · cases op <;>
      first
        | exact ⟨_, _, rfl⟩
        | simp [gen_convert_s_helper] at hs
  · cases op' <;>
      first
        | exact ⟨_, _, rfl⟩
        | simp [gen_convert_d_helper] at hd

/- A guest state with the FCSR overflow flag (bit 18) set and register 0
   zero, used to witness the saturation test. -/
def fcsrOverflowSt : GuestReg → Nat :=
  fun r => if r = GuestReg.FCSR then 2 ^ 18 else 0

/-- Witness for C8 at ftintrz.w.s and ftintrz.l.d with FCSR bit 18 set. -/
theorem claim8_witness :
    evalE fcsrOverflowSt (fun _ => 0) is_Invalid_Overflow
      = some (if (fcsrOverflowSt GuestReg.FCSR).testBit 18 = true ∨
                 (fcsrOverflowSt GuestReg.FCSR).testBit 20 = true then 1 else 0) ∧
    (∃ e s₁, gen_convert_s_helper fpop.FTINTRZ_W_S 1 2 ⟨0, [], 0⟩
        = (true, putFReg32 1 (unop IROp.Iop_ReinterpI32asF32
            (IRExpr.ITE is_Invalid_Overflow (mkU32 0x7fffffff) e))
            (calculateFCSR fpop.FTINTRZ_W_S 1 2 0 0 s₁))) ∧
    (∃ e s₁, gen_convert_d_helper fpop.FTINTRZ_L_D 1 2 ⟨0, [], 0⟩
        = (true, putFReg64 1 (unop IROp.Iop_ReinterpI64asF64
            (IRExpr.ITE is_Invalid_Overflow (mkU64 0x7fffffffffffffff) e))
            (calculateFCSR fpop.FTINTRZ_L_D 1 2 0 0 s₁))) :=
  claim8_ftint_saturation fpop.FTINTRZ_W_S fpop.FTINTRZ_L_D 1 2 ⟨0, [], 0⟩
    fcsrOverflowSt (fun _ => 0) (by simp [fcsrOverflowSt]) (by norm_num [fcsrOverflowSt])
    (by decide) (by decide)

/-- Claim C9 (amended): with the FP capability present, fcvt.s.d (the
narrowing conversion) emits its conversion as a binary op whose rounding
operand is the translated rounding-mode temp, which is assigned from
FCSR; fcvt.d.s (the widening, exact conversion) emits a unary conversion
carrying no rounding-mode operand and reading nothing from FCSR. -/
theorem claim9_amended_fcvt_rounding (dres : DisResult) (insn : Nat)
    (archinfo : VexArchInfo) (s : EmitSt) (hFP : archinfo.hwcaps_FP = true) :
    ((gen_fcvt_s_d dres insn archinfo s).2.2.stmts
       = (calculateFCSR fpop.FCVT_S_D 1 (get_fj insn) 0 0 s).stmts ++
         [IRStmt.WrTmp (s.tmp + 1)
            (binop IROp.Iop_And32 (binop IROp.Iop_Shr32 (getFCSR 0) (mkU8 8)) (mkU32 3)),
          IRStmt.Put (GuestReg.F (get_fd insn))
            (binop IROp.Iop_F64toF32
              (binop IROp.Iop_Xor32 (mkexpr (s.tmp + 1))
                (binop IROp.Iop_And32
                  (binop IROp.Iop_Shl32 (mkexpr (s.tmp + 1)) (mkU8 1)) (mkU32 2)))
              (getFReg64 (get_fj insn)))] ∧
     exprReadsGuest GuestReg.FCSR
       (binop IROp.Iop_And32 (binop IROp.Iop_Shr32 (getFCSR 0) (mkU8 8)) (mkU32 3))
       = true) ∧
    ((gen_fcvt_d_s dres insn archinfo s).2.2.stmts
       = (calculateFCSR fpop.FCVT_D_S 1 (get_fj insn) 0 0 s).stmts ++
         [IRStmt.Put (GuestReg.F (get_fd insn))
            (unop IROp.Iop_F32toF64 (getFReg32 (get_fj insn)))] ∧
     exprReadsGuest GuestReg.FCSR (unop IROp.Iop_F32toF64 (getFReg32 (get_fj insn)))
       = false) := by
  refine ⟨⟨?_, rfl⟩, ?_, ?_⟩
  · simp [gen_fcvt_s_d, hFP, get_rounding_mode, calculateFCSR, newTemp, assign,
          stmt, putFCSR, putFReg32]
  · simp [gen_fcvt_d_s, hFP, calculateFCSR, newTemp, assign, stmt, putFCSR, putFReg64]
  · simp [exprReadsGuest, getFReg32, getFReg64, unop]

/-- Counterexample for C9 as stated: decoding fcvt.d.s with fd=1, fj=2
(FP capability present) emits its conversion as a plain unary widening
whose expression carries no rounding-mode operand and performs no FCSR
read, so the fcvt.d.s half of the claim is false. -/
theorem claim9_counterexample_fcvt_d_s_no_rounding :
    (gen_fcvt_d_s ⟨WhatNext.Dis_Continue, 4, IRJumpKind.Ijk_INVALID, DisHint.Dis_HintNone⟩
        65 ⟨true, true, true⟩ ⟨0, [], 0⟩).2.2.stmts.getLast?
      = some (IRStmt.Put (GuestReg.F 1) (unop IROp.Iop_F32toF64 (getFReg32 2))) ∧
    exprReadsGuest GuestReg.FCSR (unop IROp.Iop_F32toF64 (getFReg32 2)) = false := by
  refine ⟨by decide, by decide⟩

/-- Witness for C9 (amended) at fcvt.s.d / fcvt.d.s with fd=1, fj=2. -/
theorem claim9_witness :
    ((gen_fcvt_s_d ⟨WhatNext.Dis_Continue, 4, IRJumpKind.Ijk_INVALID, DisHint.Dis_HintNone⟩
         65 ⟨true, true, true⟩ ⟨0, [], 0⟩).2.2.stmts
       = (calculateFCSR fpop.FCVT_S_D 1 (get_fj 65) 0 0 ⟨0, [], 0⟩).stmts ++
         [IRStmt.WrTmp (EmitSt.tmp ⟨0, [], 0⟩ + 1)
            (binop IROp.Iop_And32 (binop IROp.Iop_Shr32 (getFCSR 0) (mkU8 8)) (mkU32 3)),
          IRStmt.Put (GuestReg.F (get_fd 65))
            (binop IROp.Iop_F64toF32
              (binop IROp.Iop_Xor32 (mkexpr (EmitSt.tmp ⟨0, [], 0⟩ + 1))
                (binop IROp.Iop_And32
                  (binop IROp.Iop_Shl32 (mkexpr (EmitSt.tmp ⟨0, [], 0⟩ + 1)) (mkU8 1))
                  (mkU32 2)))
              (getFReg64 (get_fj 65)))] ∧
     exprReadsGuest GuestReg.FCSR
       (binop IROp.Iop_And32 (binop IROp.Iop_Shr32 (getFCSR 0) (mkU8 8)) (mkU32 3))
       = true) ∧
    ((gen_fcvt_d_s ⟨WhatNext.Dis_Continue, 4, IRJumpKind.Ijk_INVALID, DisHint.Dis_HintNone⟩
         65 ⟨true, true, true⟩ ⟨0, [], 0⟩).2.2.stmts
       = (calculateFCSR fpop.FCVT_D_S 1 (get_fj 65) 0 0 ⟨0, [], 0⟩).stmts ++
         [IRStmt.Put (GuestReg.F (get_fd 65))
            (unop IROp.Iop_F32toF64 (getFReg32 (get_fj 65)))] ∧
     exprReadsGuest GuestReg.FCSR (unop IROp.Iop_F32toF64 (getFReg32 (get_fj 65)))
       = false) :=
  claim9_amended_fcvt_rounding
    ⟨WhatNext.Dis_Continue, 4, IRJumpKind.Ijk_INVALID, DisHint.Dis_HintNone⟩
    65 ⟨true, true, true⟩ ⟨0, [], 0⟩ rfl

/-- Claim C4 (amended): every guarded exit emitted by the fallback
sc.w/sc.d helper targets pc+4, the next instruction (offset 4, not 0):
one SigBUS alignment exit and the four Boring failure exits (size
mismatch, address mismatch, data mismatch, CAS failure).  Running the
emitted IR for sc.w r4, r5, 0 with LLSC_SIZE preset to 8 stops at the
size-mismatch exit towards pc+4 with observable state exactly r4 := 0
plus LLSC_SIZE := 0, before any memory-touching statement executes (the
interpreter rejects Store/CAS/LLSC, so memory is unchanged). -/
theorem claim4_amended_sc_fail (rd rj si14 : Nat) (size64 : Bool) (pc t0 : Nat)
    (σ : GuestReg → Nat) (τ : Nat → Nat) :
    exits (gen_sc_helper rd rj si14 size64 ⟨pc, [], t0⟩).2.stmts
      = [(IRJumpKind.Ijk_SigBUS, (pc + 4) % 2 ^ 64),
         (IRJumpKind.Ijk_Boring, (pc + 4) % 2 ^ 64),
         (IRJumpKind.Ijk_Boring, (pc + 4) % 2 ^ 64),
         (IRJumpKind.Ijk_Boring, (pc + 4) % 2 ^ 64),
         (IRJumpKind.Ijk_Boring, (pc + 4) % 2 ^ 64)] ∧
    (σ (GuestReg.R 0) = 0 → σ (GuestReg.R 5) < 2 ^ 64 → σ (GuestReg.R 5) &&& 3 = 0 →
     σ GuestReg.LLSC_SIZE = 8 →
     (exec (gen_sc_helper 4 5 0 false ⟨pc, [], t0⟩).2.stmts σ τ).map
         (fun p => (p.1, p.2.2))
       = some (updReg (updReg σ (GuestReg.R 4) 0) GuestReg.LLSC_SIZE 0,
               some (IRJumpKind.Ijk_Boring, (pc + 4) % 2 ^ 64))) := by
  constructor
  · cases size64 <;> by_cases h : rd = 0 <;>
      simp [gen_sc_helper, newTemp, assign, stmt, cas, exit, gen_SIGBUS, putIReg,
            offsetIReg, extendS, h, exits]
  · intro hR0 h5 halign hsz
    have h5b : σ (GuestReg.R 5) < 18446744073709551616 := by
      norm_num at h5
      exact h5
    have h5' : σ (GuestReg.R 5) % 18446744073709551616 = σ (GuestReg.R 5) :=
      Nat.mod_eq_of_lt h5b
    simp only [gen_sc_helper, newTemp, assign, stmt, cas, exit, gen_SIGBUS, putIReg,
               offsetIReg, extendS, extend64, check_align, mkexpr, binop, unop, load,
               mkU64]
    norm_num
    simp [exec, evalE, tysize, updTemp, updReg, h5', hR0, halign, hsz, offsetIReg]

/-- Counterexample for C4 as stated: for sc.w r4, r5, 0 at pc 0x1000 every
emitted failure exit targets 0x1004 (offset 4, the next instruction); no
guarded exit with offset 0 (target 0x1000, restart of the same
instruction) is emitted. -/
theorem claim4_counterexample_offset_not_zero :
    exits (gen_sc_helper 4 5 0 false ⟨4096, [], 0⟩).2.stmts
      = [(IRJumpKind.Ijk_SigBUS, 4100), (IRJumpKind.Ijk_Boring, 4100),
         (IRJumpKind.Ijk_Boring, 4100), (IRJumpKind.Ijk_Boring, 4100),
         (IRJumpKind.Ijk_Boring, 4100)] ∧
    (IRJumpKind.Ijk_Boring, 4096)
      ∉ exits (gen_sc_helper 4 5 0 false ⟨4096, [], 0⟩).2.stmts := by
  refine ⟨by decide, by decide⟩

/- A guest state for the failed-sc scenario: LLSC_SIZE preset to 8 (a
   stale ll.d transaction), r5 holding an aligned address, all other
   state zero. -/
def scWitnessSt : GuestReg → Nat :=
  fun r => if r = GuestReg.LLSC_SIZE then 8 else if r = GuestReg.R 5 then 4096 else 0

/-- Witness for C4 (amended): running the sc.w emission with LLSC_SIZE=8
stops at the size-mismatch exit towards pc+4 with r4 := 0 and
LLSC_SIZE := 0. -/
theorem claim4_witness :
    (exec (gen_sc_helper 4 5 0 false ⟨4096, [], 0⟩).2.stmts scWitnessSt (fun _ => 0)).map
        (fun p => (p.1, p.2.2))
      = some (updReg (updReg scWitnessSt (GuestReg.R 4) 0) GuestReg.LLSC_SIZE 0,
              some (IRJumpKind.Ijk_Boring, (4096 + 4) % 2 ^ 64)) :=
  (claim4_amended_sc_fail 4 5 0 false 4096 0 scWitnessSt (fun _ => 0)).2
    (by decide) (by decide) (by decide) (by decide)

/-- Claim C3: for an encoding no dispatcher arm recognizes (the populated
arms fail cleanly, emitting nothing, as every switch-default in the
source does; encodings with top bits 10/11 never reach an arm at all),
the entry point returns len 0, whatNext StopHere, jk_StopHere NoDecode,
and the only statement appended to the IRSB is PC := guest_IP. -/
theorem claim3_nodecode (f00 f01 : Nat → EmUpd) (code : Nat → Nat)
    (pc : Nat) (irsb0 : List IRStmt) (tmp0 : Nat)
    (hpc : pc % 4 = 0)
    (hsp : isSpecialPreamble code = false)
    (h00 : SLICE (getUInt code 0) 31 30 = 0 →
      (f00 (getUInt code 0)).ok = false ∧ (f00 (getUInt code 0)).emits = [])
    (h01 : SLICE (getUInt code 0) 31 30 = 1 →
      (f01 (getUInt code 0)).ok = false ∧ (f01 (getUInt code 0)).emits = []) :
    disInstr_LOONGARCH64 f00 f01 code pc irsb0 tmp0
      = some (false,
              ⟨WhatNext.Dis_StopHere, 0, IRJumpKind.Ijk_NoDecode, DisHint.Dis_HintNone⟩,
              ⟨pc, irsb0 ++ [IRStmt.Put GuestReg.PC (mkU64 pc)], tmp0⟩) := by
  rcases hS : SLICE (getUInt code 0) 31 30 with _ | _ | n
  · obtain ⟨hok, hem⟩ := h00 hS
    simp [disInstr_LOONGARCH64, disInstr_LOONGARCH64_WRK,
          disInstr_LOONGARCH64_WRK_special, hsp, hpc, hS, hok, hem, putPC, stmt]
  · obtain ⟨hok, hem⟩ := h01 hS
    simp [disInstr_LOONGARCH64, disInstr_LOONGARCH64_WRK,
          disInstr_LOONGARCH64_WRK_special, hsp, hpc, hS, hok, hem, putPC, stmt]
  · simp [disInstr_LOONGARCH64, disInstr_LOONGARCH64_WRK,
          disInstr_LOONGARCH64_WRK_special, hsp, hpc, hS, putPC, stmt]

/-- Witness for C3: the all-ones encoding 0xFFFFFFFF (top bits 11) with
clean-failing dispatch arms yields exactly the NoDecode result and the
single statement PC := guest_IP. -/
theorem claim3_witness :
    disInstr_LOONGARCH64 (fun _ => ⟨false, WhatNext.Dis_Continue, IRJumpKind.Ijk_INVALID, []⟩)
        (fun _ => ⟨false, WhatNext.Dis_Continue, IRJumpKind.Ijk_INVALID, []⟩)
        (fun _ => 0xFF) 0 [] 0
      = some (false,
              ⟨WhatNext.Dis_StopHere, 0, IRJumpKind.Ijk_NoDecode, DisHint.Dis_HintNone⟩,
              ⟨0, [] ++ [IRStmt.Put GuestReg.PC (mkU64 0)], 0⟩) :=
  claim3_nodecode _ _ _ 0 [] 0 (by decide) (by decide) (by decide) (by decide)

/- Decomposition of the worker result: the DisResult it returns has len 4
   (ordinary instruction, the default it sets at entry and which no
   sub-decoder changes) or len 20 (magic preamble), len 20 exactly on a
   recognized preamble, and a recognized preamble always decodes. -/
theorem disInstr_WRK_len (f00 f01 : Nat → EmUpd) (code : Nat → Nat) (s : EmitSt)
    (ok : Bool) (d : DisResult) (s' : EmitSt)
    (h : disInstr_LOONGARCH64_WRK f00 f01 code s = some (ok, d, s')) :
    (d.len = 4 ∨ d.len = 20) ∧
    (d.len = 20 ↔ isSpecialPreamble code = true) ∧
    (isSpecialPreamble code = true → ok = true) := by
  unfold disInstr_LOONGARCH64_WRK disInstr_LOONGARCH64_WRK_special at h
  by_cases hpc : s.pc % 4 = 0
  case neg =>
    rw [if_pos (by simpa using hpc)] at h
    exact absurd h (by simp)
  case pos =>
    by_cases hsp : isSpecialPreamble code = true
    · by_cases h1 : getUInt code 16 = 0x001535ad
      · simp [hpc, hsp, h1] at h
        obtain ⟨ho, hd, hs⟩ := h
        subst hd
        simp [hsp, ho]
      · by_cases h2 : getUInt code 16 = 0x001539ce
        · simp [hpc, hsp, h1, h2] at h
          obtain ⟨ho, hd, hs⟩ := h
          subst hd
          simp [hsp, ho]
        · by_cases h3 : getUInt code 16 = 0x00153def
          · simp [hpc, hsp, h1, h2, h3] at h
            obtain ⟨ho, hd, hs⟩ := h
            subst hd
            simp [hsp, ho]
          · by_cases h4 : getUInt code 16 = 0x00154210
            · simp [hpc, hsp, h1, h2, h3, h4] at h
              obtain ⟨ho, hd, hs⟩ := h
              subst hd
              simp [hsp, ho]
            · simp [hpc, hsp, h1, h2, h3, h4] at h
    · rw [Bool.not_eq_true] at hsp
      rcases hS : SLICE (getUInt code 0) 31 30 with _ | _ | n
      · by_cases hok : (f00 (getUInt code 0)).ok = true
        · simp [hpc, hsp, hS, hok] at h
          obtain ⟨ho, hd, hs⟩ := h
          subst hd
          simp [hsp, ho]
        · simp [hpc, hsp, hS, hok] at h
          obtain ⟨ho, hd, hs⟩ := h
          subst hd
          simp [hsp, ho]
      · by_cases hok : (f01 (getUInt code 0)).ok = true
        · simp [hpc, hsp, hS, hok] at h
          obtain ⟨ho, hd, hs⟩ := h
          subst hd
          simp [hsp, ho]
        · simp [hpc, hsp, hS, hok] at h
          obtain ⟨ho, hd, hs⟩ := h
          subst hd
          simp [hsp, ho]
      · simp [hpc, hsp, hS] at h
        obtain ⟨ho, hd, hs⟩ := h
        subst hd
        simp [hsp, ho]

/-- Claim C1: whenever the entry point returns, DisResult.len is 0, 4 or
20, with len 0 exactly on decode failure, len 20 exactly when the
16-byte magic preamble was recognized, and len 4 exactly for an
ordinarily decoded instruction. -/
theorem claim1_len_partition (f00 f01 : Nat → EmUpd) (code : Nat → Nat)
    (pc : Nat) (irsb0 : List IRStmt) (tmp0 : Nat)
    (out : Bool × DisResult × EmitSt)
    (h : disInstr_LOONGARCH64 f00 f01 code pc irsb0 tmp0 = some out) :
    (out.2.1.len = 0 ∨ out.2.1.len = 4 ∨ out.2.1.len = 20) ∧
    (out.2.1.len = 0 ↔ out.1 = false) ∧
    (out.2.1.len = 20 ↔ isSpecialPreamble code = true) ∧
    (out.2.1.len = 4 ↔ (out.1 = true ∧ isSpecialPreamble code = false)) := by
  unfold disInstr_LOONGARCH64 at h
  rcases hw : disInstr_LOONGARCH64_WRK f00 f01 code ⟨pc, irsb0, tmp0⟩ with _ | okds
  · rw [hw] at h
    exact absurd h (by simp)
  · obtain ⟨ok, d, s'⟩ := okds
    rw [hw] at h
    obtain ⟨hlen, hiff, hpre⟩ := disInstr_WRK_len f00 f01 code _ ok d s' hw
    cases ok
    · simp only [Bool.false_eq_true, if_false] at h
      have hnp : isSpecialPreamble code = false := by
        by_contra hc
        have := hpre (by simpa using hc)
        simp at this
      cases h
      simp [hnp]
    · simp only [if_true] at h
      have h45 : (d.len = 4 ∨ d.len = 20) := hlen
      rw [if_pos h45] at h
      have hout : out.1 = true ∧ out.2.1 = d := by
        cases hwn : d.whatNext <;> rw [hwn] at h <;> cases h <;> exact ⟨rfl, rfl⟩
      obtain ⟨ho1, ho2⟩ := hout
      rw [ho1, ho2]
      rcases hlen with h4 | h20
      · have hnp : isSpecialPreamble code = false := by
          by_contra hc
          have : d.len = 20 := hiff.mpr (by simpa using hc)
          omega
        simp [h4, hnp]
      · simp [h20, hiff.mp h20]

/- The guest byte stream of end-to-end scenario 1: the 16-byte magic
   preamble followed by the client-request selector word. -/
def specialCRcode : Nat → Nat := fun i =>
  [0x00, 0x0c, 0x45, 0x00, 0x00, 0x34, 0x45, 0x00,
   0x00, 0x74, 0x45, 0x00, 0x00, 0x4c, 0x45, 0x00,
   0xad, 0x35, 0x15, 0x00].getD i 0

/- A dispatch tree in which no arm recognizes anything. -/
def failDispatch : Nat → EmUpd :=
  fun _ => ⟨false, WhatNext.Dis_Continue, IRJumpKind.Ijk_INVALID, []⟩

/- The decode result of scenario 1. -/
def specialCRout : Bool × DisResult × EmitSt :=
  (true, ⟨WhatNext.Dis_StopHere, 20, IRJumpKind.Ijk_ClientReq, DisHint.Dis_HintNone⟩,
   ⟨0, [IRStmt.Put GuestReg.PC (mkU64 20)], 0⟩)

/-- Witness for C1: the magic client-request preamble decodes with
len 20. -/
theorem claim1_witness :
    (specialCRout.2.1.len = 0 ∨ specialCRout.2.1.len = 4 ∨ specialCRout.2.1.len = 20) ∧
    (specialCRout.2.1.len = 0 ↔ specialCRout.1 = false) ∧
    (specialCRout.2.1.len = 20 ↔ isSpecialPreamble specialCRcode = true) ∧
    (specialCRout.2.1.len = 4
      ↔ (specialCRout.1 = true ∧ isSpecialPreamble specialCRcode = false)) :=
  claim1_len_partition failDispatch failDispatch specialCRcode 0 [] 0 specialCRout
    (by decide)

end LA64
